import Mathlib

/-!
Verification of the AgroScan advisory core: the progressive rule engine
(`ruleEngine`, ruleEngine.js, three tiers), its earlier basic variant
(`ruleEngine0`), the preassigned-command table, and the Perplexity chat /
recommendation handlers.

Numbers are embedded as `ℚ` (all thresholds and the inputs of interest are
exact decimals); an optional JavaScript argument is `Option ℚ`, and a
comparison of `undefined` against a number is `false`, as in the source
language.
-/

namespace AgroScan

/-! ### Message strings of the progressive rule engine (ruleEngine.js, three-tier variant) -/

def msg_acidic : String := "Soil is acidic. Add lime to balance pH."
def msg_alkaline : String := "Soil is alkaline. Add sulfur or compost."
def msg_phGood : String := "Soil pH is good for most crops."
def msg_dry : String := "Soil is dry. Irrigation is recommended."
def msg_wet : String := "Soil is wet. Avoid overwatering."
def msg_moistHealthy : String := "Soil moisture is in a healthy range."
def msg_tempLow : String := "Temperature is low. Frost protection may be needed."
def msg_tempHigh : String := "Temperature is high. Provide shade or extra water."
def msg_tempSuitable : String := "Temperature is suitable for most crops."
def msg_veryAcidic : String := "Very acidic soil. Apply lime generously, monitor crop growth."
def msg_stronglyAlkaline : String := "Strongly alkaline soil. Consider gypsum or acidifying organic matter."
def msg_extremelyDry : String := "Extremely dry soil. Use mulching and drip irrigation to conserve water."
def msg_rootRot : String := "Excess water can cause root rot. Improve drainage or raised beds."
def msg_severeCold : String := "Severe cold stress. Use row covers or greenhouses for sensitive crops."
def msg_heatStress : String := "Heat stress likely. Use shade nets and frequent irrigation."
def msg_nutrient : String := "Nutrient availability may be limited. Conduct soil NPK test."
def msg_pest : String := "High humidity and heat can increase pest/fungal disease risk. Monitor closely and consider IPM strategies."
def msg_crop : String := "Conditions are optimal for crops like wheat, rice, maize, and vegetables."

/-- JavaScript comparison `t < c` where `t` may be `undefined`:
`undefined < c` evaluates to `false`. -/
def tlt : Option ℚ → ℚ → Bool
  | none, _ => false
  | some x, c => decide (x < c)

/-- JavaScript comparison `t > c` where `t` may be `undefined`:
`undefined > c` evaluates to `false`. -/
def tgt : Option ℚ → ℚ → Bool
  | none, _ => false
  | some x, c => decide (x > c)

/-- Basic pH tier: `if (ph < 6) ... else if (ph > 8) ... else ...` (lines 14-16). -/
def phBasicMsgs (ph : ℚ) : List String :=
  if ph < 6 then [msg_acidic] else if ph > 8 then [msg_alkaline] else [msg_phGood]

/-- Basic moisture tier: `if (moisture < 30) ... else if (moisture > 70) ... else ...` (lines 19-21). -/
def moistureBasicMsgs (moisture : ℚ) : List String :=
  if moisture < 30 then [msg_dry] else if moisture > 70 then [msg_wet] else [msg_moistHealthy]

/-- Basic temperature tier, guarded by `temperature !== undefined` (lines 24-28). -/
def temperatureBasicMsgs : Option ℚ → List String
  | none => []
  | some t => if t < 15 then [msg_tempLow] else if t > 35 then [msg_tempHigh] else [msg_tempSuitable]

/-- Advanced pH tier: `if (ph < 5.5) ... else if (ph > 8.5) ...`, no else branch (lines 34-35). -/
def phAdvancedMsgs (ph : ℚ) : List String :=
  if ph < 5.5 then [msg_veryAcidic] else if ph > 8.5 then [msg_stronglyAlkaline] else []

/-- Advanced moisture tier: `if (moisture < 20) ... else if (moisture > 80) ...` (lines 38-39). -/
def moistureAdvancedMsgs (moisture : ℚ) : List String :=
  if moisture < 20 then [msg_extremelyDry] else if moisture > 80 then [msg_rootRot] else []

/-- Advanced temperature tier (lines 42-43): NOT guarded by a defined-check,
so with `temperature` undefined both comparisons are false and nothing fires. -/
def temperatureAdvancedMsgs (t : Option ℚ) : List String :=
  if tlt t 10 then [msg_severeCold] else if tgt t 40 then [msg_heatStress] else []

/-- Scientific nutrient flag: `if (ph < 6 || ph > 8)` (line 49). -/
def nutrientMsgs (ph : ℚ) : List String :=
  if ph < 6 ∨ ph > 8 then [msg_nutrient] else []

/-- Scientific pest flag: `if ((moisture > 70 && temperature > 30) || (temperature > 35))`
(lines 52-54); `temperature` may be undefined, making those conjuncts false. -/
def pestMsgs (moisture : ℚ) (t : Option ℚ) : List String :=
  if (decide (moisture > 70) && tgt t 30) || tgt t 35 then [msg_pest] else []

/-- Scientific crop flag: `if (ph >= 6 && ph <= 7.5 && moisture >= 30 && moisture <= 70)`
(lines 57-59). -/
def cropMsgs (ph moisture : ℚ) : List String :=
  if 6 ≤ ph ∧ ph ≤ 7.5 ∧ 30 ≤ moisture ∧ moisture ≤ 70 then [msg_crop] else []

/-- The progressive rule engine (ruleEngine.js, three-tier variant, lines 7-62).
The source pushes onto a local `recommendations` array in this exact order;
each tier is embedded as the list it contributes, concatenated in push order. -/
def ruleEngine (ph moisture : ℚ) (temperature : Option ℚ) : List String :=
  phBasicMsgs ph ++ moistureBasicMsgs moisture ++ temperatureBasicMsgs temperature ++
  phAdvancedMsgs ph ++ moistureAdvancedMsgs moisture ++ temperatureAdvancedMsgs temperature ++
  nutrientMsgs ph ++ pestMsgs moisture temperature ++ cropMsgs ph moisture

/-! ### Message strings of the basic rule engine variant (the second ruleEngine.js) -/

def msg0_acidic : String := "Soil is acidic. Add lime to balance pH."
def msg0_alkaline : String := "Soil is alkaline. Add sulfur or organic compost."
def msg0_phOptimal : String := "Soil pH is optimal for most crops."
def msg0_tooDry : String := "Soil is too dry. Irrigation is recommended."
def msg0_waterlogged : String := "Soil is waterlogged. Improve drainage."
def msg0_moistGood : String := "Soil moisture is within a good range."
def msg0_tempLow : String := "Temperature is low. Consider frost protection."
def msg0_tempHigh : String := "Temperature is high. Shade crops or increase irrigation."
def msg0_tempFavorable : String := "Temperature is favorable for most crops."

/-- The basic rule engine variant (the two-tier-free ruleEngine.js).
Its temperature block is guarded by `if (temperature)`, a JavaScript
truthiness test: it is skipped when `temperature` is `undefined` AND when it
is the number `0`. -/
def ruleEngine0 (ph moisture : ℚ) (temperature : Option ℚ) : List String :=
  (if ph < 6 then [msg0_acidic] else if ph > 8 then [msg0_alkaline] else [msg0_phOptimal]) ++
  (if moisture < 30 then [msg0_tooDry] else if moisture > 70 then [msg0_waterlogged] else [msg0_moistGood]) ++
  (match temperature with
   | none => []
   | some t =>
     if t = 0 then []
     else if t < 15 then [msg0_tempLow]
     else if t > 35 then [msg0_tempHigh]
     else [msg0_tempFavorable])

/-! ### Message-class predicates: the three basic pH strings, the three basic
moisture strings, the three basic temperature strings, and the two advanced
temperature strings of the progressive engine. -/

def isPhBasicMsg (s : String) : Bool :=
  s == msg_acidic || s == msg_alkaline || s == msg_phGood

def isMoistureBasicMsg (s : String) : Bool :=
  s == msg_dry || s == msg_wet || s == msg_moistHealthy

def isTemperatureBasicMsg (s : String) : Bool :=
  s == msg_tempLow || s == msg_tempHigh || s == msg_tempSuitable

def isAdvancedTemperatureMsg (s : String) : Bool :=
  s == msg_severeCold || s == msg_heatStress

/-! ### Per-tier counting lemmas: how many strings of each class each tier contributes. -/

lemma phBasic_cPh (ph : ℚ) : (phBasicMsgs ph).countP isPhBasicMsg = 1 := by
  unfold phBasicMsgs; split_ifs <;> rfl

lemma phBasic_cMoist (ph : ℚ) : (phBasicMsgs ph).countP isMoistureBasicMsg = 0 := by
  unfold phBasicMsgs; split_ifs <;> rfl

lemma phBasic_cTemp (ph : ℚ) : (phBasicMsgs ph).countP isTemperatureBasicMsg = 0 := by
  unfold phBasicMsgs; split_ifs <;> rfl

lemma phBasic_cAdvTemp (ph : ℚ) : (phBasicMsgs ph).countP isAdvancedTemperatureMsg = 0 := by
  unfold phBasicMsgs; split_ifs <;> rfl

lemma moistBasic_cPh (m : ℚ) : (moistureBasicMsgs m).countP isPhBasicMsg = 0 := by
  unfold moistureBasicMsgs; split_ifs <;> rfl

lemma moistBasic_cMoist (m : ℚ) : (moistureBasicMsgs m).countP isMoistureBasicMsg = 1 := by
  unfold moistureBasicMsgs; split_ifs <;> rfl

lemma moistBasic_cTemp (m : ℚ) : (moistureBasicMsgs m).countP isTemperatureBasicMsg = 0 := by
  unfold moistureBasicMsgs; split_ifs <;> rfl

lemma moistBasic_cAdvTemp (m : ℚ) : (moistureBasicMsgs m).countP isAdvancedTemperatureMsg = 0 := by
  unfold moistureBasicMsgs; split_ifs <;> rfl

lemma tempBasic_cPh (t : Option ℚ) : (temperatureBasicMsgs t).countP isPhBasicMsg = 0 := by
  cases t with
  | none => rfl
  | some x => simp only [temperatureBasicMsgs]; split_ifs <;> rfl

lemma tempBasic_cMoist (t : Option ℚ) : (temperatureBasicMsgs t).countP isMoistureBasicMsg = 0 := by
  cases t with
  | none => rfl
  | some x => simp only [temperatureBasicMsgs]; split_ifs <;> rfl

lemma tempBasic_cTemp_some (x : ℚ) : (temperatureBasicMsgs (some x)).countP isTemperatureBasicMsg = 1 := by
  simp only [temperatureBasicMsgs]; split_ifs <;> rfl

lemma phAdv_cPh (ph : ℚ) : (phAdvancedMsgs ph).countP isPhBasicMsg = 0 := by
  unfold phAdvancedMsgs; split_ifs <;> rfl

lemma phAdv_cMoist (ph : ℚ) : (phAdvancedMsgs ph).countP isMoistureBasicMsg = 0 := by
  unfold phAdvancedMsgs; split_ifs <;> rfl

lemma phAdv_cTemp (ph : ℚ) : (phAdvancedMsgs ph).countP isTemperatureBasicMsg = 0 := by
  unfold phAdvancedMsgs; split_ifs <;> rfl

lemma phAdv_cAdvTemp (ph : ℚ) : (phAdvancedMsgs ph).countP isAdvancedTemperatureMsg = 0 := by
  unfold phAdvancedMsgs; split_ifs <;> rfl

lemma moistAdv_cPh (m : ℚ) : (moistureAdvancedMsgs m).countP isPhBasicMsg = 0 := by
  unfold moistureAdvancedMsgs; split_ifs <;> rfl

lemma moistAdv_cMoist (m : ℚ) : (moistureAdvancedMsgs m).countP isMoistureBasicMsg = 0 := by
  unfold moistureAdvancedMsgs; split_ifs <;> rfl

lemma moistAdv_cTemp (m : ℚ) : (moistureAdvancedMsgs m).countP isTemperatureBasicMsg = 0 := by
  unfold moistureAdvancedMsgs; split_ifs <;> rfl

lemma moistAdv_cAdvTemp (m : ℚ) : (moistureAdvancedMsgs m).countP isAdvancedTemperatureMsg = 0 := by
  unfold moistureAdvancedMsgs; split_ifs <;> rfl

lemma tempAdv_cPh (t : Option ℚ) : (temperatureAdvancedMsgs t).countP isPhBasicMsg = 0 := by
  cases t with
  | none => rfl
  | some x => simp only [temperatureAdvancedMsgs]; split_ifs <;> rfl

lemma tempAdv_cMoist (t : Option ℚ) : (temperatureAdvancedMsgs t).countP isMoistureBasicMsg = 0 := by
  cases t with
  | none => rfl
  | some x => simp only [temperatureAdvancedMsgs]; split_ifs <;> rfl

lemma tempAdv_cTemp (t : Option ℚ) : (temperatureAdvancedMsgs t).countP isTemperatureBasicMsg = 0 := by
  cases t with
  | none => rfl
  | some x => simp only [temperatureAdvancedMsgs]; split_ifs <;> rfl

lemma nutrient_cPh (ph : ℚ) : (nutrientMsgs ph).countP isPhBasicMsg = 0 := by
  unfold nutrientMsgs; split_ifs <;> rfl

lemma nutrient_cMoist (ph : ℚ) : (nutrientMsgs ph).countP isMoistureBasicMsg = 0 := by
  unfold nutrientMsgs; split_ifs <;> rfl

lemma nutrient_cTemp (ph : ℚ) : (nutrientMsgs ph).countP isTemperatureBasicMsg = 0 := by
  unfold nutrientMsgs; split_ifs <;> rfl

lemma nutrient_cAdvTemp (ph : ℚ) : (nutrientMsgs ph).countP isAdvancedTemperatureMsg = 0 := by
  unfold nutrientMsgs; split_ifs <;> rfl

lemma pest_cPh (m : ℚ) (t : Option ℚ) : (pestMsgs m t).countP isPhBasicMsg = 0 := by
  unfold pestMsgs; split_ifs <;> rfl

lemma pest_cMoist (m : ℚ) (t : Option ℚ) : (pestMsgs m t).countP isMoistureBasicMsg = 0 := by
  unfold pestMsgs; split_ifs <;> rfl

lemma pest_cTemp (m : ℚ) (t : Option ℚ) : (pestMsgs m t).countP isTemperatureBasicMsg = 0 := by
  unfold pestMsgs; split_ifs <;> rfl

lemma crop_cPh (ph m : ℚ) : (cropMsgs ph m).countP isPhBasicMsg = 0 := by
  unfold cropMsgs; split_ifs <;> rfl

lemma crop_cMoist (ph m : ℚ) : (cropMsgs ph m).countP isMoistureBasicMsg = 0 := by
  unfold cropMsgs; split_ifs <;> rfl

lemma crop_cTemp (ph m : ℚ) : (cropMsgs ph m).countP isTemperatureBasicMsg = 0 := by
  unfold cropMsgs; split_ifs <;> rfl

lemma crop_cAdvTemp (ph m : ℚ) : (cropMsgs ph m).countP isAdvancedTemperatureMsg = 0 := by
  unfold cropMsgs; split_ifs <;> rfl

/-- The three temperature-sensitive tiers all vanish when temperature is absent. -/
lemma temperature_tiers_none (m : ℚ) :
    temperatureBasicMsgs none = [] ∧ temperatureAdvancedMsgs none = [] ∧ pestMsgs m none = [] := by
  refine ⟨rfl, rfl, ?_⟩
  unfold pestMsgs; split_ifs with h
  · simp [tgt] at h
  · rfl

/-- Claim C1: for every input, the first element of `ruleEngine (ph, moisture, temperature)`
is the acidic message when ph < 6, the alkaline message when ph > 8, and otherwise the
optimal message (so ph = 6 and ph = 8 give the optimal message); the second element is
the dry message when moisture < 30, the waterlogged message when moisture > 70, and
otherwise the good-range message (so moisture = 30 and moisture = 70 give good-range);
and exactly one basic pH-tier string and exactly one basic moisture-tier string occur in
the whole output. -/
theorem ruleEngine_basic_tiers (ph moisture : ℚ) (t : Option ℚ) :
    (ruleEngine ph moisture t)[0]? =
      some (if ph < 6 then msg_acidic else if ph > 8 then msg_alkaline else msg_phGood) ∧
    (ruleEngine ph moisture t)[1]? =
      some (if moisture < 30 then msg_dry else if moisture > 70 then msg_wet else msg_moistHealthy) ∧
    (ruleEngine ph moisture t).countP isPhBasicMsg = 1 ∧
    (ruleEngine ph moisture t).countP isMoistureBasicMsg = 1 := by
  refine ⟨?_, ?_, ?_, ?_⟩
  · unfold ruleEngine phBasicMsgs
    split_ifs <;> simp
  · unfold ruleEngine phBasicMsgs moistureBasicMsgs
    split_ifs <;> simp
  · simp [ruleEngine, List.countP_append, phBasic_cPh, moistBasic_cPh, tempBasic_cPh,
      phAdv_cPh, moistAdv_cPh, tempAdv_cPh, nutrient_cPh, pest_cPh, crop_cPh]
  · simp [ruleEngine, List.countP_append, phBasic_cMoist, moistBasic_cMoist, tempBasic_cMoist,
      phAdv_cMoist, moistAdv_cMoist, tempAdv_cMoist, nutrient_cMoist, pest_cMoist, crop_cMoist]

/-- Claim C3 (code bug in the basic variant): in the basic `ruleEngine0` the temperature
block is guarded by the truthiness test `if (temperature)`, so the defined temperature 0
produces exactly the same output as an absent temperature, with no temperature-tier
string at all; the progressive `ruleEngine` instead emits exactly one basic
temperature-tier string for every defined temperature and none when it is absent. -/
theorem ruleEngine0_zero_temperature :
    ruleEngine0 7 50 (some 0) = [msg0_phOptimal, msg0_moistGood] ∧
    ruleEngine0 7 50 none = [msg0_phOptimal, msg0_moistGood] ∧
    (∀ ph moisture x : ℚ, (ruleEngine ph moisture (some x)).countP isTemperatureBasicMsg = 1) ∧
    (∀ ph moisture : ℚ, (ruleEngine ph moisture none).countP isTemperatureBasicMsg = 0) := by
  refine ⟨by norm_num [ruleEngine0], by norm_num [ruleEngine0], ?_, ?_⟩
  · intro ph m x
    simp [ruleEngine, List.countP_append, phBasic_cTemp, moistBasic_cTemp, tempBasic_cTemp_some,
      phAdv_cTemp, moistAdv_cTemp, tempAdv_cTemp, nutrient_cTemp, pest_cTemp, crop_cTemp]
  · intro ph m
    simp [ruleEngine, List.countP_append, phBasic_cTemp, moistBasic_cTemp,
      phAdv_cTemp, moistAdv_cTemp, tempAdv_cTemp, nutrient_cTemp, pest_cTemp, crop_cTemp,
      (temperature_tiers_none m).1]

/-- Evaluation of the progressive engine at ph 5, moisture 25, temperature 5. -/
lemma ruleEngine_eval_5_25_5 :
    ruleEngine 5 25 (some 5) =
      [msg_acidic, msg_dry, msg_tempLow, msg_veryAcidic, msg_severeCold, msg_nutrient] := by
  norm_num [ruleEngine, phBasicMsgs, moistureBasicMsgs, temperatureBasicMsgs, phAdvancedMsgs,
    moistureAdvancedMsgs, temperatureAdvancedMsgs, nutrientMsgs, pestMsgs, cropMsgs, tlt, tgt]

/-- Claim C5 is false as stated: `ruleEngine 5 25 (some 5)` does NOT contain the
"extremely dry" message, because the advanced dry threshold is moisture < 20 and 25 ≥ 20. -/
theorem ruleEngine_acidic_scenario_counterexample :
    msg_extremelyDry ∉ ruleEngine 5 25 (some 5) := by
  rw [ruleEngine_eval_5_25_5]; decide

/-- Claim C5 as amended: `ruleEngine 5 25 (some 5)` contains the acidic, dry, low/frost,
very-acidic, severe-cold-stress and nutrient-availability messages, and contains neither
the crop-suitability message nor the "extremely dry" message (moisture 25 is not below
the advanced threshold 20). -/
theorem ruleEngine_acidic_scenario :
    msg_acidic ∈ ruleEngine 5 25 (some 5) ∧
    msg_dry ∈ ruleEngine 5 25 (some 5) ∧
    msg_tempLow ∈ ruleEngine 5 25 (some 5) ∧
    msg_veryAcidic ∈ ruleEngine 5 25 (some 5) ∧
    msg_severeCold ∈ ruleEngine 5 25 (some 5) ∧
    msg_nutrient ∈ ruleEngine 5 25 (some 5) ∧
    msg_crop ∉ ruleEngine 5 25 (some 5) ∧
    msg_extremelyDry ∉ ruleEngine 5 25 (some 5) := by
  rw [ruleEngine_eval_5_25_5]; decide

/-- Claim C7: with temperature absent, the progressive engine emits neither advanced
temperature message; the advanced comparisons against `undefined` are false, not errors
(the function stays total and produces a list for every pH and moisture). -/
theorem ruleEngine_no_advanced_temperature_when_absent (ph moisture : ℚ) :
    msg_severeCold ∉ ruleEngine ph moisture none ∧ msg_heatStress ∉ ruleEngine ph moisture none := by
  have h0 : (ruleEngine ph moisture none).countP isAdvancedTemperatureMsg = 0 := by
    simp [ruleEngine, List.countP_append, phBasic_cAdvTemp, moistBasic_cAdvTemp,
      phAdv_cAdvTemp, moistAdv_cAdvTemp, nutrient_cAdvTemp, crop_cAdvTemp,
      (temperature_tiers_none moisture).1, (temperature_tiers_none moisture).2.1,
      (temperature_tiers_none moisture).2.2]
  have hall := List.countP_eq_zero.mp h0
  exact ⟨fun hm => absurd (by decide) (hall _ hm), fun hm => absurd (by decide) (hall _ hm)⟩

/-- Claim C8: `ruleEngine 6.5 50 (some 25)` is exactly the optimal-pH, healthy-moisture,
suitable-temperature and crop-suitability messages, in that order — in particular no
advanced-tier or scientific-tier warning appears. -/
theorem ruleEngine_favorable_scenario :
    ruleEngine 6.5 50 (some 25) = [msg_phGood, msg_moistHealthy, msg_tempSuitable, msg_crop] := by
  norm_num [ruleEngine, phBasicMsgs, moistureBasicMsgs, temperatureBasicMsgs, phAdvancedMsgs,
    moistureAdvancedMsgs, temperatureAdvancedMsgs, nutrientMsgs, pestMsgs, cropMsgs, tlt, tgt]

/-- Claim C9: both rule-engine variants are pure functions of their three arguments;
two calls with identical arguments return identical sequences. -/
theorem ruleEngine_deterministic (ph moisture : ℚ) (t : Option ℚ) :
    ruleEngine ph moisture t = ruleEngine ph moisture t ∧
    ruleEngine0 ph moisture t = ruleEngine0 ph moisture t :=
  ⟨rfl, rfl⟩

/-! ### Conversation assembler: preassignedCommands.js, aiPersonality.js and
perplexity-chat-handler.js / perplexity-recommend-handler.js.

The external completion collaborator is modelled explicitly: `ApiOutcome` is what a
single HTTP round trip produces — `failure` for a network error, a thrown exception or
a malformed response body, and `success a` for a parsed body whose `answer` field is
`a` (absent field gives `success none`). A chat handler receives the whole collaborator
as a function from the prompt it sends to the outcome it gets back. -/

/-- JavaScript `String.prototype.toLowerCase()`, modelled character by character over
the string\x27s character list (structurally, so that it evaluates). -/
def jsToLower (s : String) : String :=
  ⟨s.data.map Char.toLower⟩

/-- JavaScript `String.prototype.trim()`: drop leading and trailing whitespace,
modelled structurally over the string\x27s character list. -/
def jsTrim (s : String) : String :=
  ⟨((s.data.dropWhile Char.isWhitespace).reverse.dropWhile Char.isWhitespace).reverse⟩

/-- One entry of the `messages` array: `{ role, content }`. -/
structure ChatMessage where
  role : String
  content : String
deriving DecidableEq

/-- Outcome of one call to the external completion collaborator. -/
inductive ApiOutcome where
  | failure : ApiOutcome
  | success : Option String → ApiOutcome
deriving DecidableEq

/-- The template literal of aiPersonality.js (it starts and ends with a newline). -/
def AI_PERSONALITY_DESCRIPTION : String :=
  "\nYou are a professional and easy-to-understand agriculture AI.\nProvide concise, accurate, and friendly guidance for farmers and students.\nAlways keep answers simple, clear, and practical.\n"

/-- `getAIPersonality()` of aiPersonality.js. -/
def getAIPersonality : String := AI_PERSONALITY_DESCRIPTION

/-- The command table of preassignedCommands.js, in source order. -/
def commands : List (String × String) :=
  [("help", "You can ask me about soil health, crop recommendations, pest management, and general agriculture advice."),
   ("who are you", "I am AgroBot, your professional agriculture assistant. I provide guidance on crops, soil, and farming best practices."),
   ("hello", "Hello! How can I assist you with your farm or garden today?"),
   ("hi", "Hi there! Ask me anything about agriculture."),
   ("thank you", "You\x27re welcome! Happy to help with your agricultural queries."),
   ("bye", "Goodbye! Wishing you a successful harvest.")]

/-- `getPreassignedCommand(message)`: look the trimmed, lower-cased message up in the
table; `commands[key] || null` is `none` on a miss. -/
def getPreassignedCommand (message : String) : Option String :=
  commands.lookup (jsToLower (jsTrim message))

/-- One line of the rendered history: `` `${m.role === "user" ? "User" : "AI"}: ${m.content}` ``. -/
def renderTurn (m : ChatMessage) : String :=
  (if m.role = "user" then "User" else "AI") ++ ": " ++ m.content

/-- `messages.slice(-5)`: the last five entries (all of them when there are fewer). -/
def lastFive (ms : List ChatMessage) : List ChatMessage :=
  ms.drop (ms.length - 5)

/-- The rendered lines of `messages.slice(-5).map(...)` before they are joined. -/
def chatLines (ms : List ChatMessage) : List String :=
  (lastFive ms).map renderTurn

/-- The `aiPrompt` template literal of perplexity-chat-handler.js line 53. -/
def chatPrompt (ms : List ChatMessage) : String :=
  getAIPersonality ++ "\nChat History:\n" ++ String.intercalate "\n" (chatLines ms) ++
    "\nAI (reply max 100 tokens, aim ~30 tokens):"

/-- `queryPerplexityAI` (perplexity-chat-handler.js lines 16-34): on a thrown error the
catch block returns the fallback; otherwise `response.data.answer || fallback`, so a
missing or empty `answer` also gives the fallback. -/
def queryPerplexityAI : ApiOutcome → String
  | .failure => "AI failed to respond"
  | .success none => "AI failed to respond"
  | .success (some a) => if a = "" then "AI failed to respond" else a

/-- `askPerplexityChat(messages)` (perplexity-chat-handler.js lines 37-63). A missing
(`null`/`undefined`) argument is `none`. The guard `!messages || messages.length === 0`
returns the literal early; then the last message lifts to the command table; on a miss
the built prompt goes to the collaborator and the reply is trimmed. -/
def askPerplexityChat (world : String → ApiOutcome) : Option (List ChatMessage) → String
  | none => "No messages provided"
  | some ms =>
    if ms.length = 0 then "No messages provided"
    else
      match getPreassignedCommand (ms.getLastD ⟨"", ""⟩).content with
      | some r => r
      | none => jsTrim (queryPerplexityAI (world (chatPrompt ms)))

/-- `askPerplexityRecommend(params)` (perplexity-recommend-handler.js lines 19-52),
with the one-shot prompt construction absorbed into the collaborator outcome (no claim
depends on the recommend prompt's text): a thrown error or failed fetch hits the catch
block; otherwise `data.answer?.trim() || fallback`. -/
def askPerplexityRecommend : ApiOutcome → String
  | .failure => "AI failed to provide a recommendation."
  | .success none => "AI failed to provide a recommendation."
  | .success (some a) =>
    if jsTrim a = "" then "AI failed to provide a recommendation." else jsTrim a

/-- Claim C2: whenever the completion collaborator fails — network error or malformed
response (`failure`) or a response missing its answer field (`success none`) — the chat
handler returns exactly "AI failed to respond" and the recommend handler returns exactly
"AI failed to provide a recommendation."; both are total functions, so no error
propagates to the caller. -/
theorem perplexity_failure_fallback (world : String → ApiOutcome)
    (hw : ∀ p, world p = ApiOutcome.failure ∨ world p = ApiOutcome.success none)
    (ms : List ChatMessage) (hne : ms.length ≠ 0)
    (hmiss : getPreassignedCommand (ms.getLastD ⟨"", ""⟩).content = none)
    (o : ApiOutcome) (ho : o = ApiOutcome.failure ∨ o = ApiOutcome.success none) :
    askPerplexityChat world (some ms) = "AI failed to respond" ∧
    askPerplexityRecommend o = "AI failed to provide a recommendation." := by
  constructor
  · simp only [askPerplexityChat, if_neg hne, hmiss]
    rcases hw (chatPrompt ms) with h | h <;> rw [h] <;> decide
  · rcases ho with rfl | rfl <;> rfl

/-- Witness for C2 at a concrete failing collaborator and a one-message history. -/
theorem perplexity_failure_fallback_witness :
    askPerplexityChat (fun _ => ApiOutcome.failure) (some [⟨"user", "what about soil"⟩]) =
      "AI failed to respond" ∧
    askPerplexityRecommend ApiOutcome.failure = "AI failed to provide a recommendation." :=
  perplexity_failure_fallback _ (fun _ => Or.inl rfl) _ (by decide) (by decide) _ (Or.inl rfl)

/-- Claim C6: whenever the last message's content trims and lower-cases to "help", the
chat handler returns the canned help string, for every collaborator behaviour — the
collaborator is never consulted. -/
theorem help_command_short_circuit (world : String → ApiOutcome) (ms : List ChatMessage)
    (hne : ms.length ≠ 0)
    (hhelp : jsToLower (jsTrim (ms.getLastD ⟨"", ""⟩).content) = "help") :
    askPerplexityChat world (some ms) =
      "You can ask me about soil health, crop recommendations, pest management, and general agriculture advice." := by
  have hcmd : getPreassignedCommand (ms.getLastD ⟨"", ""⟩).content =
      some "You can ask me about soil health, crop recommendations, pest management, and general agriculture advice." := by
    unfold getPreassignedCommand
    rw [hhelp]
    rfl
  simp only [askPerplexityChat, if_neg hne, hcmd]

/-- Witness for C6: mixed case and surrounding whitespace. -/
theorem help_command_short_circuit_witness :
    askPerplexityChat (fun _ => ApiOutcome.failure) (some [⟨"user", "  HeLp  "⟩]) =
      "You can ask me about soil health, crop recommendations, pest management, and general agriculture advice." :=
  help_command_short_circuit _ _ (by decide) (by decide)

/-- An eight-turn prior history used to test the history window. -/
def priorTurns : List ChatMessage :=
  [⟨"user", "m1"⟩, ⟨"assistant", "m2"⟩, ⟨"user", "m3"⟩, ⟨"assistant", "m4"⟩,
   ⟨"user", "m5"⟩, ⟨"assistant", "m6"⟩, ⟨"user", "m7"⟩, ⟨"assistant", "m8"⟩]

/-- Claim C4 is false as stated: with 8 prior turns and a fresh user message, the
rendered history is NOT the 5 most recent prior turns followed by the new message — the
`slice(-5)` window covers history plus the new message, so the 5th-most-recent prior
turn ("AI: m4") is absent and only the 4 most recent prior turns appear before the new
message. -/
theorem chat_history_window_counterexample :
    chatLines (priorTurns ++ [⟨"user", "is basalt soil good"⟩]) ≠
      ["AI: m4", "User: m5", "AI: m6", "User: m7", "AI: m8", "User: is basalt soil good"] ∧
    ("AI: m4") ∉ chatLines (priorTurns ++ [⟨"user", "is basalt soil good"⟩]) ∧
    chatLines (priorTurns ++ [⟨"user", "is basalt soil good"⟩]) =
      ["User: m5", "AI: m6", "User: m7", "AI: m8", "User: is basalt soil good"] := by
  refine ⟨by decide, by decide, by decide⟩

/-- Claim C4 as amended: with 8 prior turns and a new user message that misses the
command table, the prompt handed to the collaborator renders exactly the 4 most recent
prior turns, in original order, followed by the new message as the final user turn; and
that prompt is exactly what `askPerplexityChat` sends to the collaborator (whose reply
it trims). -/
theorem chat_history_window (world : String → ApiOutcome) (prior : List ChatMessage)
    (h8 : prior.length = 8) (newMsg : String)
    (hmiss : getPreassignedCommand newMsg = none) :
    chatLines (prior ++ [⟨"user", newMsg⟩]) =
      (prior.drop 4 ++ [ChatMessage.mk "user" newMsg]).map renderTurn ∧
    askPerplexityChat world (some (prior ++ [⟨"user", newMsg⟩])) =
      jsTrim (queryPerplexityAI (world (chatPrompt (prior ++ [⟨"user", newMsg⟩])))) := by
  constructor
  · unfold chatLines lastFive
    have h9 : (prior ++ [ChatMessage.mk "user" newMsg]).length = 9 := by
      simp [h8]
    rw [h9, show 9 - 5 = 4 from rfl, List.drop_append_of_le_length (by omega)]
  · have hlen : (prior ++ [(⟨"user", newMsg⟩ : ChatMessage)]).length ≠ 0 := by
      simp
    have hlast : ((prior ++ [(⟨"user", newMsg⟩ : ChatMessage)]).getLastD ⟨"", ""⟩).content
        = newMsg := by
      rw [List.getLastD_concat]
    simp only [askPerplexityChat, if_neg hlen, hlast, hmiss]

/-- Witness for the amended C4 at the concrete eight-turn history. -/
theorem chat_history_window_witness :
    chatLines (priorTurns ++ [⟨"user", "is basalt soil good"⟩]) =
      (priorTurns.drop 4 ++ [ChatMessage.mk "user" "is basalt soil good"]).map renderTurn ∧
    askPerplexityChat (fun _ => ApiOutcome.failure) (some (priorTurns ++ [⟨"user", "is basalt soil good"⟩])) =
      jsTrim (queryPerplexityAI ((fun _ => ApiOutcome.failure) (chatPrompt (priorTurns ++ [⟨"user", "is basalt soil good"⟩])))) :=
  chat_history_window _ priorTurns (by decide) _ (by decide)

/-- Claim C10: a missing messages argument and an empty messages array both return the
literal "No messages provided", for every collaborator behaviour — neither the command
table nor the collaborator affects the result. -/
theorem no_messages_guard (world : String → ApiOutcome) :
    askPerplexityChat world none = "No messages provided" ∧
    askPerplexityChat world (some []) = "No messages provided" :=
  ⟨rfl, rfl⟩

end AgroScan
